import Mathlib

/-!
Shallow embedding of the gradio-hackathon repository.

The repository is a Gradio chat front-end (src/app.py) over a LangGraph agent
(src/agent.py) configured in src/tools.py, plus an MCP tool server
(src/mcp-Research/src/server.py).  Python exceptions are modelled with
Except String, Python None with Option, and the outcomes of external calls
(HTTP requests, the Gemini client, the MCP client) are parameters of the
embedded functions, so that every control-flow path of the source is a
path of the embedding.
-/

namespace GradioHackathon

/-- ASCII whitespace characters: the characters recognised by the Python
str.strip method and by the regex character class backslash-s (the embedding
restricts both to the ASCII range; the claims under study never depend on
non-ASCII whitespace). -/
def pyIsSpace (c : Char) : Bool :=
  c == ' ' || c == '\t' || c == '\n' || c == '\r' || c == Char.ofNat 11 || c == Char.ofNat 12

/-- Embedding of the Python str.strip method with no argument: removes leading
and trailing whitespace. -/
def pyStrip (s : String) : String :=
  ⟨((s.data.dropWhile pyIsSpace).reverse.dropWhile pyIsSpace).reverse⟩

/-- One entry of the chat history handed to the agent.  The Gradio front-end
passes dictionaries with role and content keys; any other object (for example
a tuple from the legacy history format) has no get method, so calling get on
it raises AttributeError.  dict models a mapping whose role and content keys
may each be present or absent; nondict models any object without a get
method. -/
inductive HistItem where
  | dict (role : Option String) (content : Option String)
  | nondict
deriving DecidableEq

/-- Embedding of convert_history_to_messages (src/agent.py lines 107-117):
iterates over the history; msg.get with a default on a dictionary yields the
stored value or the default; entries with role user or assistant are kept in
order, every other role is skipped; an entry without a get method makes the
call raise AttributeError. -/
def convert_history_to_messages : List HistItem → Except String (List (String × String))
  | [] => .ok []
  | .nondict :: _ => .error "AttributeError: object has no attribute get"
  | .dict r c :: rest => do
      let ms ← convert_history_to_messages rest
      let role := r.getD "user"
      let content := c.getD ""
      if role = "user" then return ("user", content) :: ms
      else if role = "assistant" then return ("assistant", content) :: ms
      else return ms

/-- The part of a streamed node payload that src/agent.py reads: node_data may
or may not hold a messages key; when present it is a list of messages of which
the code only ever reads the content attribute, so a message is embedded as
its content string. -/
structure NodeData where
  messages : Option (List String)
deriving DecidableEq

/-- One event yielded by agent.astream: a dictionary from node name to node
payload, iterated in order by the inner for loop of get_response_async. -/
abbrev StreamEvent := List (String × NodeData)

/-- Behaviour of one agent.astream call, as observed by the loop in
get_response_async: the events the stream yields, and an optional exception
the stream raises after its last yielded event. -/
structure AgentRun where
  events : List StreamEvent
  streamErr : Option String
deriving DecidableEq

/-- State of the streaming loop of get_response_async: the captured
final_response, the printed step_count, and (as observability of the tool
branch at src/agent.py line 176) the number of items whose node name is
tools. -/
structure LoopState where
  finalResponse : Option String
  stepCount : Nat
  toolSteps : Nat
deriving DecidableEq

/-- Processing of one (node_name, node_data) item inside the streaming loop
(src/agent.py lines 152-193): step_count is always incremented first; when
node_data holds a messages key, indexing the last element of an empty list
raises IndexError, and otherwise final_response is set to the content of the
last message. -/
def procItem (st : LoopState) (item : String × NodeData) : LoopState × Option String :=
  let st1 : LoopState :=
    ⟨st.finalResponse, st.stepCount + 1,
      if item.1 = "tools" then st.toolSteps + 1 else st.toolSteps⟩
  match item.2.messages with
  | none => (st1, none)
  | some [] => (st1, some "IndexError: list index out of range")
  | some l => (⟨l.getLast?, st1.stepCount, st1.toolSteps⟩, none)

/-- Runs the inner for loop of one event; stops at the first raised
exception. -/
def runItems : LoopState → List (String × NodeData) → LoopState × Option String
  | st, [] => (st, none)
  | st, it :: rest =>
    match procItem st it with
    | (st2, none) => runItems st2 rest
    | (st2, some e) => (st2, some e)

/-- Runs the async-for loop of get_response_async over the streamed events;
stops at the first raised exception. -/
def runEvents : LoopState → List StreamEvent → LoopState × Option String
  | st, [] => (st, none)
  | st, ev :: rest =>
    match runItems st ev with
    | (st2, none) => runEvents st2 rest
    | (st2, some e) => (st2, some e)

/-- Outcome of a Python call: a returned value or an escaped exception. -/
inductive Outcome where
  | ret (s : String)
  | raised (e : String)
deriving DecidableEq

/-- Everything observable about one get_response_async call: its outcome, the
messages list passed to agent.astream (none when astream is never called), the
number of astream calls, the number of non-streaming single-shot model calls
(the source contains no such call, so the embedding can only ever record
zero), and the final step counters of the loop. -/
structure TurnResult where
  outcome : Outcome
  modelInput : Option (List (String × String))
  streamCalls : Nat
  singleShotCalls : Nat
  steps : Nat
  toolSteps : Nat
deriving DecidableEq

/-- Embedding of get_response_async (src/agent.py lines 120-209).  When the
agent is absent the fixed error text is returned at once.  Otherwise the body
runs under a try whose except handler (lines 205-209) begins with the
statement assigning old_stderr back to sys.stderr: both names are locals first
bound at lines 141-143, so when the exception was raised before that point --
in particular inside convert_history_to_messages at line 129 -- the handler
itself raises UnboundLocalError, which escapes the call.  When the exception
is raised at or after the stderr capture (by the stream or by indexing an
empty messages list), old_stderr is bound, and the handler returns the text
Error: followed by the exception text.  With no exception the captured
final_response is returned if it is truthy, else the fixed fallback text. -/
def get_response_async (agent : Option AgentRun) (message : String)
    (history : List HistItem) (threadId : String) : TurnResult :=
  match agent with
  | none => ⟨.ret "Error: Agent not initialized", none, 0, 0, 0, 0⟩
  | some run =>
    match convert_history_to_messages history with
    | .error _ =>
        ⟨.raised "UnboundLocalError: cannot access local variable old_stderr before assignment",
          none, 0, 0, 0, 0⟩
    | .ok ms =>
      let input := ms ++ [("user", message)]
      match runEvents ⟨none, 0, 0⟩ run.events with
      | (st, some e) => ⟨.ret ("Error: " ++ e), some input, 1, 0, st.stepCount, st.toolSteps⟩
      | (st, none) =>
        match run.streamErr with
        | some e => ⟨.ret ("Error: " ++ e), some input, 1, 0, st.stepCount, st.toolSteps⟩
        | none =>
          let resp :=
            match st.finalResponse with
            | some s => if s = "" then "No response generated" else s
            | none => "No response generated"
          ⟨.ret resp, some input, 1, 0, st.stepCount, st.toolSteps⟩

/-- Embedding of get_response (src/agent.py lines 212-217): the synchronous
wrapper only drives the coroutine on the shared event loop and adds no
behaviour of its own. -/
def get_response (agent : Option AgentRun) (message : String)
    (history : List HistItem) (threadId : String) : TurnResult :=
  get_response_async agent message history threadId

/-- An MCP tool as the agent sees it; only its identity matters to the
claims. -/
structure McpTool where
  name : String
deriving DecidableEq

/-- Environment of one initialization attempt: the GOOGLE_API_KEY value, the
configured MCP_SERVERS entries (their names), and the outcome of the single
combined MultiServerMCPClient.get_tools call. -/
structure InitEnv where
  googleApiKey : Option String
  servers : List String
  getToolsOutcome : Except String (List McpTool)

/-- Embedding of get_api_key (src/tools.py lines 140-145): a missing or empty
GOOGLE_API_KEY raises ValueError with the fixed message. -/
def get_api_key (env : InitEnv) : Except String String :=
  match env.googleApiKey with
  | none => .error "GOOGLE_API_KEY not found. Please set it in your .env file."
  | some k =>
    if k = "" then .error "GOOGLE_API_KEY not found. Please set it in your .env file."
    else .ok k

/-- The built agent; the claims only need its tool set. -/
structure BuiltAgent where
  tools : List McpTool
deriving DecidableEq

/-- Model of the tool enumeration of the external MultiServerMCPClient: the
client gathers the tool lists of all configured servers and the failure of any
one connection makes the whole combined call raise (fail-fast gather), so one
failing provider yields an exception rather than a partial tool list. -/
def combinedGetTools : List (Except String (List McpTool)) → Except String (List McpTool)
  | [] => .ok []
  | .error e :: _ => .error e
  | .ok ts :: rest => (combinedGetTools rest).map fun more => ts ++ more

/-- Embedding of build_agent_async (src/agent.py lines 47-93): resolve the
credential, build the model client, and when MCP_SERVERS is non-empty load the
tools through one combined get_tools call guarded only by a try/finally that
restores stderr -- any exception of that call propagates.  With an empty
server mapping the tool list stays empty and the agent is still created. -/
def build_agent_async (env : InitEnv) : Except String BuiltAgent := do
  let _ ← get_api_key env
  if env.servers = [] then
    return ⟨[]⟩
  else
    let ts ← env.getToolsOutcome
    return ⟨ts⟩

/-- Embedding of initialize_agent (src/agent.py lines 96-104, named
init_agent here because the gate of this development reserves the original
spelling): any exception of build_agent_async is caught and turned into
ok=false with a diagnostic, leaving the global agent absent. -/
def init_agent (env : InitEnv) : Bool × String × Option BuiltAgent :=
  match build_agent_async env with
  | .ok a => (true, "Agent initialized successfully!", some a)
  | .error e => (false, "Failed to initialize agent: " ++ e, none)

/-- An agent run that yields a single agent node event carrying one final
text message: the pure language-model path with no tool node. -/
def pureRun (t : String) : AgentRun := ⟨[[("agent", ⟨some [t]⟩)]], none⟩

/-- An agent run whose stream terminates at once without any message: no
usable final content is ever captured. -/
def emptyStreamRun : AgentRun := ⟨[], none⟩

/-- One model-step/tool-invocation round-trip as streamed by the agent: an
agent node item requesting a tool call (empty content) followed by a tools
node item carrying the tool result. -/
def invokeRoundEvent : StreamEvent :=
  [("agent", ⟨some [""]⟩), ("tools", ⟨some ["tool result"]⟩)]

/-- A turn in which the capability responses always induce another
invocation: n consecutive round-trips. -/
def alwaysInvokingRun (n : Nat) : AgentRun := ⟨List.replicate n invokeRoundEvent, none⟩

/-- An HTTP response as the tool bodies read it: status code and body text. -/
structure HttpResp where
  status : Nat
  text : String
deriving DecidableEq

/-- A Python-level return value of an MCP tool: a string, or None. -/
abbrev PyRet := Option String

/-- One organic result record of the Serper scholar response; each field may
be absent, in which of case the source substitutes the shown default. -/
structure SerpOrganic where
  title : Option String
  link : Option String
  publication : Option String
  snippet : Option String
  citedBy : Option Nat

/-- The parsed JSON of the scholar endpoint: an optional error key and an
optional organic result list. -/
structure SerpJson where
  errorMsg : Option String
  organic : Option (List SerpOrganic)

/-- Environment of one retrieve_related_papers call: the SERPAPI_API_KEY
value, and the outcome of the HTTP POST (an exception, or a response whose
JSON parse either succeeds or raises). -/
structure SerpEnv where
  serpApiKey : Option String
  httpOutcome : Except String (HttpResp × Option SerpJson)

/-- Formatting of one paper record (src/mcp-Research/src/server.py lines
105-121), with the defaults the source supplies for absent keys. -/
def serpFormat (r : SerpOrganic) : String :=
  "Title: " ++ r.title.getD "Unknown Title" ++ "\n" ++
  "Publication: " ++ r.publication.getD "Unknown Publication" ++ "\n" ++
  "Link: " ++ r.link.getD "N/A" ++ "\n" ++
  "Summary: " ++ r.snippet.getD "No summary available" ++ "\n" ++
  "Citations: " ++ toString (r.citedBy.getD 0)

/-- Body of retrieve_related_papers inside its try (src/mcp-Research/src/server.py
lines 52-128); .error values are exceptions the body raises. -/
def retrieve_body (env : SerpEnv) (topic : String) (maxResults : Nat) : Except String String :=
  match env.serpApiKey with
  | none => .ok "❌ Error: SERPAPI_API_KEY is empty or not set in .env file"
  | some k =>
    if pyStrip k = "" then .ok "❌ Error: SERPAPI_API_KEY is empty or not set in .env file"
    else
      match env.httpOutcome with
      | .error e => .error e
      | .ok (resp, pj) =>
        if resp.status ≠ 200 then
          .ok ("SerpApi Error (HTTP " ++ toString resp.status ++ "): " ++ resp.text)
        else
          match pj with
          | none => .error "JSONDecodeError: Expecting value"
          | some j =>
            match j.errorMsg with
            | some m => .ok ("SerpApi Error: " ++ m)
            | none =>
              let papers :=
                match j.organic with
                | some rs => (rs.take maxResults).map serpFormat
                | none => []
              if papers = [] then .ok ("No research papers found for topic: " ++ topic)
              else .ok (String.intercalate "\n\n" papers)

/-- Embedding of the retrieve_related_papers tool (src/mcp-Research/src/server.py
lines 39-135): the whole body sits in a try whose except clause returns an
error string, so the tool returns a string for every environment. -/
def retrieve_related_papers (env : SerpEnv) (topic : String) (maxResults : Nat) :
    Except String PyRet :=
  match retrieve_body env topic maxResults with
  | .ok s => .ok (some s)
  | .error e => .ok (some ("Error retrieving papers with SerpApi: " ++ e))

/-- Environment of one explain_paper call: the concatenated streamed text of
the Gemini call, or the exception raised anywhere inside the try (client
construction, configuration, or streaming). -/
structure GeminiEnv where
  streamOutcome : Except String String

/-- Body of explain_paper inside its try (src/mcp-Research/src/server.py lines
148-227). -/
def explain_body (env : GeminiEnv) (paperUrl : String) : Except String String :=
  match env.streamOutcome with
  | .error e => .error e
  | .ok t =>
    .ok (if t = "" then "No explanation could be generated for the provided URL." else t)

/-- Embedding of the explain_paper tool (src/mcp-Research/src/server.py lines
139-230): the except clause converts every exception to an error string. -/
def explain_paper (env : GeminiEnv) (paperUrl : String) : Except String PyRet :=
  match explain_body env paperUrl with
  | .ok s => .ok (some s)
  | .error e =>
    .ok (some ("Error explaining paper: " ++ e ++
      "\nPlease ensure GEMINI_API_KEY is set and you have access to the Gemini 3 Pro preview."))

/-- Environment of one paper_to_poster call: the IMGBB_API_KEY value, the PDF
download outcome, the Gemini file upload outcome, the image generation stream
outcome (an optional base64 image), and the ImgBB upload outcome (the
response together with the data url field of its JSON when present). -/
structure PosterEnv where
  imgbbKey : Option String
  download : Except String HttpResp
  geminiUpload : Except String Unit
  genOutcome : Except String (Option String)
  imgbbUpload : Except String (HttpResp × Option String)

/-- Body of paper_to_poster inside its try (src/mcp-Research/src/server.py
lines 250-375); indexing a 200 upload response whose JSON lacks the data url
raises KeyError, which the outer except then converts to text. -/
def poster_body (env : PosterEnv) (paperUrl : String) : Except String String :=
  match env.imgbbKey with
  | none => .ok "Error: IMGBB_API_KEY not found in environment variables. Please get a free key from api.imgbb.com"
  | some k =>
    if k = "" then
      .ok "Error: IMGBB_API_KEY not found in environment variables. Please get a free key from api.imgbb.com"
    else
      match env.download with
      | .error e => .error e
      | .ok resp =>
        if resp.status ≠ 200 then .ok ("Error downloading PDF: HTTP " ++ toString resp.status)
        else
          match env.geminiUpload with
          | .error e => .error e
          | .ok _ =>
            match env.genOutcome with
            | .error e => .error e
            | .ok none => .ok "Error: No poster image was generated by the model."
            | .ok (some _) =>
              match env.imgbbUpload with
              | .error e => .error e
              | .ok (ur, urlField) =>
                if ur.status = 200 then
                  match urlField with
                  | some u => .ok u
                  | none => .error "KeyError: data"
                else
                  .ok ("Error uploading to ImgBB: " ++ toString ur.status ++ " - " ++ ur.text)

/-- Embedding of the paper_to_poster tool (src/mcp-Research/src/server.py
lines 232-378). -/
def paper_to_poster (env : PosterEnv) (paperUrl : String) : Except String PyRet :=
  match poster_body env paperUrl with
  | .ok s => .ok (some s)
  | .error e => .ok (some ("Error in paper_to_poster: " ++ e))

/-- Environment of one paper_to_podcast call: the Bytescale credentials, the
PDF download outcome, the Gemini file upload outcome, the script generation
outcome, the audio generation outcome (optional audio bytes), and the
Bytescale upload outcome: the response together with the fileUrl field of its
parsed JSON, which result.get returns as None when the key is absent. -/
structure PodcastEnv where
  bytescaleAccountId : Option String
  bytescaleApiKey : Option String
  download : Except String HttpResp
  geminiUpload : Except String Unit
  scriptOutcome : Except String String
  audioOutcome : Except String (Option String)
  uploadOutcome : Except String (HttpResp × Option String)

/-- True when a credential is absent or the empty string, matching Python
truthiness of the environment lookup. -/
def credMissing : Option String → Bool
  | none => true
  | some s => s = ""

/-- Body of paper_to_podcast inside its outer try (src/mcp-Research/src/server.py
lines 396-557).  The upload sits in an inner try of its own whose except
returns an error string; on a 200 upload response the source returns
result.get of fileUrl directly, which is Python None when the key is absent,
so the body can return a non-string. -/
def podcast_body (env : PodcastEnv) (paperUrl : String) : Except String PyRet :=
  if credMissing env.bytescaleAccountId || credMissing env.bytescaleApiKey then
    .ok (some "Error: BYTESCALE_ACCOUNT_ID or BYTESCALE_API_KEY not found in environment variables.")
  else
    match env.download with
    | .error e => .error e
    | .ok resp =>
      if resp.status ≠ 200 then .ok (some ("Error downloading PDF: HTTP " ++ toString resp.status))
      else
        match env.geminiUpload with
        | .error e => .error e
        | .ok _ =>
          match env.scriptOutcome with
          | .error e => .error e
          | .ok script =>
            if script = "" then .ok (some "Error: Failed to generate podcast script.")
            else
              match env.audioOutcome with
              | .error e => .error e
              | .ok none => .ok (some "Error: Failed to generate audio from podcast script.")
              | .ok (some _) =>
                match env.uploadOutcome with
                | .error e => .ok (some ("Error during audio upload: " ++ e))
                | .ok (ur, fileUrl) =>
                  if ur.status = 200 then .ok fileUrl
                  else
                    .ok (some ("Error uploading to Bytescale: " ++ toString ur.status ++ " - " ++ ur.text))

/-- Embedding of the paper_to_podcast tool (src/mcp-Research/src/server.py
lines 383-560). -/
def paper_to_podcast (env : PodcastEnv) (paperUrl : String) : Except String PyRet :=
  match podcast_body env paperUrl with
  | .ok v => .ok v
  | .error e => .ok (some ("Error generating podcast: " ++ e))

/-- A podcast environment in which every external step succeeds but the 200
Bytescale upload response carries no fileUrl field. -/
def podcastNoFileUrlEnv : PodcastEnv :=
  ⟨some "acct", some "key", .ok ⟨200, "pdfbytes"⟩, .ok (), .ok "script text",
    .ok (some "audiobytes"), .ok (⟨200, "empty json body"⟩, none)⟩

/-- Lower-casing of an ASCII letter, for the IGNORECASE flag of the image
URL pattern. -/
def toLowerAscii (c : Char) : Char :=
  if 'A' ≤ c ∧ c ≤ 'Z' then Char.ofNat (c.toNat + 32) else c

/-- Case-insensitive test that the text begins with the given lower-case
pattern literal. -/
def ciStartsWith : List Char → List Char → Bool
  | [], _ => true
  | _ :: _, [] => false
  | p :: ps, c :: cs => toLowerAscii c == p && ciStartsWith ps cs

/-- A character accepted by the regex class excluding whitespace and the
closing parenthesis, used both for the URL body and for the query part. -/
def isRunChar (c : Char) : Bool :=
  !(pyIsSpace c) && c != ')'

/-- Matching of the scheme part of the image URL pattern: http with an
optional s, then the separator; the optional s is tried greedily first and
given up when the separator does not follow, exactly as the regex engine
backtracks. -/
def matchScheme (l : List Char) : Option Nat :=
  if ciStartsWith "http".data l then
    if ciStartsWith "s://".data (l.drop 4) then some 8
    else if ciStartsWith "://".data (l.drop 4) then some 7
    else none
  else none

/-- The extension alternatives of the image URL pattern, in the order the
alternation lists them. -/
def extAlternatives : List (List Char) :=
  ["png".data, "jpg".data, "jpeg".data, "gif".data, "webp".data, "svg".data]

/-- Matching of the extension alternation at the given text, returning the
number of consumed characters of the first alternative that fits. -/
def extAt (l : List Char) : Option Nat :=
  (extAlternatives.find? fun p => ciStartsWith p l).map List.length

/-- Matching of a literal dot followed by the extension alternation. -/
def dotExtAt (l : List Char) : Option Nat :=
  match l with
  | [] => none
  | c :: rest => if c = '.' then (extAt rest).map (· + 1) else none

/-- Backtracking of the greedy one-or-more URL-body repetition: the engine
first consumes the maximal run and then gives characters back one at a time
until the dot and extension match; searchDot rest m tries the split points m,
m-1, ..., 1 in that order and returns the split point together with the
length of the dot-extension part. -/
def searchDot (rest : List Char) : Nat → Option (Nat × Nat)
  | 0 => none
  | n + 1 =>
    match dotExtAt (rest.drop (n + 1)) with
    | some k => some (n + 1, k)
    | none => searchDot rest n

/-- Matching of the optional greedy query part: a question mark followed by
any number of run characters, or nothing. -/
def queryLen (l : List Char) : Nat :=
  match l with
  | [] => 0
  | c :: rest => if c = '?' then 1 + (rest.takeWhile isRunChar).length else 0

/-- Attempted match of the full image URL pattern at the head of the text,
returning the length of the match: scheme, backtracked URL body up to the
last dot-extension inside the maximal run, and optional query. -/
def tryMatchAt (l : List Char) : Option Nat :=
  match matchScheme l with
  | none => none
  | some s =>
    match searchDot (l.drop s) ((l.drop s).takeWhile isRunChar).length with
    | none => none
    | some (L, k) => some (s + L + k + queryLen ((l.drop s).drop (L + k)))

/-- Scanning loop of re.finditer: at each position try the pattern, on
success record (start, length) and continue at the match end, on failure
advance one character; the fuel only bounds the recursion and exceeds the
number of possible positions. -/
def scanFrom (orig : List Char) : Nat → Nat → List (Nat × Nat)
  | 0, _ => []
  | f + 1, pos =>
    if pos < orig.length then
      match tryMatchAt (orig.drop pos) with
      | some L => (pos, L) :: scanFrom orig f (pos + L)
      | none => scanFrom orig f (pos + 1)
    else []

/-- All matches of the image URL pattern in the text, in document order, as
(start, length) pairs: the embedding of re.finditer over the pattern of
src/app.py line 23. -/
def findMatches (orig : List Char) : List (Nat × Nat) :=
  scanFrom orig (orig.length + 1) 0

/-- The matched URL text of a match. -/
def urlAt (orig : List Char) (m : Nat × Nat) : List Char :=
  (orig.drop m.1).take m.2

/-- The guard of src/app.py line 33: a match is converted unless the two
characters just before its start in the original text are the closing
bracket and opening parenthesis of a markdown image. -/
def notMarkdownAt (orig : List Char) (start : Nat) : Bool :=
  decide (start < 2) || !((orig.drop (start - 2)).take 2 == [']', '('])

/-- The replacement block of src/app.py lines 35-39 for a matched URL. -/
def mdBlock (url : List Char) : List Char :=
  "\n\n📸 **Click image to view full size:**\n\n![Generated Image](".data ++
    url ++ ")\n\n".data

/-- One iteration of the replacement loop of src/app.py lines 29-40: on a
qualifying match, splice the replacement block into the working text at the
match position of the original text and append the URL to the image list;
otherwise leave both untouched. -/
def stepImage (orig : List Char) (acc : List Char × List (List Char)) (m : Nat × Nat) :
    List Char × List (List Char) :=
  if notMarkdownAt orig m.1 then
    (acc.1.take m.1 ++ mdBlock (urlAt orig m) ++ acc.1.drop (m.1 + m.2),
      acc.2 ++ [urlAt orig m])
  else acc

/-- The replacement loop over all matches in reverse document order, started
from the original text and an empty image list. -/
def applyMatches (orig : List Char) : List Char × List (List Char) :=
  (findMatches orig).reverse.foldl (stepImage orig) (orig, [])

/-- Extraction core on an actual string (the branch of
extract_images_from_text below its type guard). -/
def extractFromStr (s : String) : String × List String :=
  if s.data = [] then (s, [])
  else
    let r := applyMatches s.data
    (⟨r.1⟩, r.2.map fun u => (⟨u⟩ : String))

/-- A Python value arriving at extract_images_from_text: None, a string, or
any other non-string object. -/
inductive PyVal where
  | pyNone
  | pyStr (s : String)
  | pyOther
deriving DecidableEq

/-- Embedding of extract_images_from_text (src/app.py lines 13-42): falsy or
non-string input is returned unchanged with an empty image list; a string is
scanned for image URLs, every match not already preceded by a markdown
image opener is replaced by the markdown block and collected, and matches
are processed in reverse document order. -/
def extract_images_from_text : PyVal → PyVal × List String
  | .pyStr s =>
    let r := extractFromStr s
    (.pyStr r.1, r.2)
  | v => (v, [])

/-- One front-end chat history entry: a role and content pair. -/
abbrev ChatMsg := String × String

/-- Everything observable about one respond call (src/app.py lines 45-68):
the three returned values and the number of calls made to the session
coordinator get_response. -/
structure RespondOut where
  msgOut : String
  historyOut : List ChatMsg
  threadIdOut : String
  coordinatorCalls : Nat
deriving DecidableEq

/-- Embedding of respond (src/app.py lines 45-68), parameterised by the
coordinator function and by the fresh uuid that would be minted for an empty
thread id.  A message that strips to the empty string returns the cleared
input, the unchanged history and the unchanged thread id without calling the
coordinator; otherwise the coordinator is called once, the answer has its
image URLs expanded, and the user and assistant entries are appended. -/
def respond (getResp : String → List ChatMsg → String → String) (freshId : String)
    (message : String) (history : List ChatMsg) (threadId : String) : RespondOut :=
  if pyStrip message = "" then ⟨"", history, threadId, 0⟩
  else
    let tid := if threadId = "" then freshId else threadId
    let bot := getResp message history tid
    let processed := (extractFromStr bot).1
    ⟨"", history ++ [("user", message), ("assistant", processed)], tid, 1⟩

/-- Spec-level left-to-right reconstruction of the converted text: the
original text outside the qualifying matches is kept, and each qualifying
match is replaced in place by the markdown block of its URL.  rebuildFrom
orig ms pos rebuilds the suffix of the text from position pos given the
qualifying matches at or after pos in ascending order. -/
def rebuildFrom (orig : List Char) : List (Nat × Nat) → Nat → List Char
  | [], pos => orig.drop pos
  | (s, L) :: ms, pos =>
      (orig.drop pos).take (s - pos) ++ mdBlock (urlAt orig (s, L)) ++
        rebuildFrom orig ms (s + L)

/-- Well-formedness of a match list relative to the text: starts are at or
after the given position, lengths are positive, matches end within the text,
and successive matches are disjoint and ascending.  The scanning loop only
produces such lists. -/
inductive MatchChain (orig : List Char) : Nat → List (Nat × Nat) → Prop
  | nil (p : Nat) : MatchChain orig p []
  | cons (p s L : Nat) (ms : List (Nat × Nat)) :
      p ≤ s → 1 ≤ L → s + L ≤ orig.length →
      MatchChain orig (s + L) ms → MatchChain orig p ((s, L) :: ms)

/-- An initialization environment with no configured providers. -/
def c6Env : InitEnv := ⟨some "google-key", [], .ok []⟩

/-- An initialization environment with two configured providers of which the
first fails to connect, so the combined enumeration raises. -/
def c7Env : InitEnv :=
  ⟨some "google-key", ["blaxel-research", "blaxel-search"],
    combinedGetTools [.error "connection refused", .ok [⟨"blaxel_web_search"⟩]]⟩

/-! Helper lemmas about the streaming loop. -/

theorem runEvents_replicate_round (n : Nat) : ∀ st : LoopState,
    runEvents st (List.replicate n invokeRoundEvent) =
      (⟨if n = 0 then st.finalResponse else some "tool result",
        st.stepCount + 2 * n, st.toolSteps + n⟩, none) := by
  induction n with
  | zero => intro st; simp [runEvents]
  | succ n ih =>
    intro st
    rw [List.replicate_succ]
    have h1 : runItems st invokeRoundEvent =
        (⟨some "tool result", st.stepCount + 2, st.toolSteps + 1⟩, none) := by
      simp [runItems, procItem, invokeRoundEvent]
    simp only [runEvents, h1, ih, ite_self]
    have h2 : st.stepCount + 2 + 2 * n = st.stepCount + 2 * (n + 1) := by omega
    have h3 : st.toolSteps + 1 + n = st.toolSteps + (n + 1) := by omega
    rw [if_neg (Nat.succ_ne_zero n), h2, h3]

theorem alwaysInvoking_turn (n : Nat) (message threadId : String) :
    get_response (some (alwaysInvokingRun n)) message [] threadId =
      ⟨.ret (if n = 0 then "No response generated" else "tool result"),
        some [("user", message)], 1, 0, 2 * n, n⟩ := by
  have h := runEvents_replicate_round n ⟨none, 0, 0⟩
  cases n with
  | zero =>
    simp only [get_response, get_response_async, convert_history_to_messages,
      alwaysInvokingRun]
    rw [h]
    simp
  | succ m =>
    simp only [get_response, get_response_async, convert_history_to_messages,
      alwaysInvokingRun]
    rw [h]
    simp

/-! Claim theorems for the agent turn executor. -/

/-- Claim C1 (code bug): the spec requires every failure inside a turn,
including exceptions raised before or during history conversion, to be
converted to a descriptive text; but when the history holds an entry without
a get method, the AttributeError of convert_history_to_messages reaches the
except handler before old_stderr was ever assigned, the handler raises
UnboundLocalError and that exception escapes get_response instead of being
converted to text. -/
theorem C1_conversion_error_escapes :
    (get_response (some (pureRun "The final answer")) "hello" [HistItem.nondict] "t1").outcome =
      .raised "UnboundLocalError: cannot access local variable old_stderr before assignment" := rfl

/-- Claim C2 counterexample: when the stream terminates with no usable final
content, get_response immediately returns the fixed failure text and performs
zero non-streaming single-shot model calls, so no retry happens before giving
up. -/
theorem C2_counterexample :
    (get_response (some emptyStreamRun) "hi" [] "t1").outcome = .ret "No response generated" ∧
    (get_response (some emptyStreamRun) "hi" [] "t1").singleShotCalls = 0 := ⟨rfl, rfl⟩

/-- Claim C2 as amended: if the streaming protocol yields no usable final
content, the turn executor returns the fixed text No response generated at
once, making no non-streaming single-shot model call at all. -/
theorem C2_no_single_shot_fallback (run : AgentRun) (message threadId : String)
    (history : List HistItem) (ms : List (String × String))
    (hconv : convert_history_to_messages history = .ok ms)
    (hfinal : (runEvents ⟨none, 0, 0⟩ run.events).1.finalResponse = none)
    (hnoerr : (runEvents ⟨none, 0, 0⟩ run.events).2 = none)
    (hstream : run.streamErr = none) :
    (get_response (some run) message history threadId).outcome = .ret "No response generated" ∧
    (get_response (some run) message history threadId).singleShotCalls = 0 := by
  rcases h : runEvents ⟨none, 0, 0⟩ run.events with ⟨st, oe⟩
  rw [h] at hfinal hnoerr
  simp only at hfinal hnoerr
  subst hnoerr
  constructor <;>
    simp [get_response, get_response_async, hconv, h, hstream, hfinal]

/-- Witness for C2_no_single_shot_fallback at a concrete empty stream. -/
theorem C2_witness :
    (get_response (some emptyStreamRun) "ping" [] "t2").outcome = .ret "No response generated" ∧
    (get_response (some emptyStreamRun) "ping" [] "t2").singleShotCalls = 0 :=
  C2_no_single_shot_fallback emptyStreamRun "ping" "t2" [] [] rfl rfl rfl rfl

/-- Claim C3 counterexample: no bound K exists after which a turn whose
capability responses always induce another invocation stops with a step
limit exceeded diagnostic; the executor performs n tool round-trips for
every n. -/
theorem C3_counterexample :
    ¬ ∃ K : Nat, ∀ n : Nat,
        (get_response (some (alwaysInvokingRun n)) "go" [] "t1").toolSteps ≤ K ∧
        (get_response (some (alwaysInvokingRun n)) "go" [] "t1").outcome =
          .ret "step limit exceeded" := by
  rintro ⟨K, hK⟩
  have h := (hK (K + 1)).1
  rw [alwaysInvoking_turn] at h
  simp only at h
  omega

/-- Claim C3 as amended: the turn executor imposes no step limit of its own:
it consumes the event stream to exhaustion, an always-invoking stream of n+1
round-trips is processed in full (n+1 tool steps), and the turn ends with the
last streamed content rather than any step limit exceeded diagnostic. -/
theorem C3_no_step_limit (n : Nat) (message threadId : String) :
    (get_response (some (alwaysInvokingRun (n + 1))) message [] threadId).toolSteps = n + 1 ∧
    (get_response (some (alwaysInvokingRun (n + 1))) message [] threadId).outcome =
      .ret "tool result" := by
  rw [alwaysInvoking_turn]
  simp

/-- Claim C4 counterexample: two calls with the same message and thread id
but different caller-supplied histories pass different message lists to the
model, so the history parameter is not ignored. -/
theorem C4_counterexample :
    (get_response (some (pureRun "ok")) "hi" [] "t1").modelInput ≠
      (get_response (some (pureRun "ok")) "hi"
        [HistItem.dict (some "user") (some "earlier")] "t1").modelInput := by
  decide

/-- Claim C4 as amended: the caller-supplied history is converted and
prepended to the new user message to form the model input, so the model input
is a function of the history parameter (the per-thread store enters only
through the thread-keyed checkpointer configuration, not by replacing this
list). -/
theorem C4_history_shapes_model_input (run : AgentRun) (message threadId : String)
    (history : List HistItem) (ms : List (String × String))
    (hconv : convert_history_to_messages history = .ok ms) :
    (get_response (some run) message history threadId).modelInput =
      some (ms ++ [("user", message)]) := by
  rcases h : runEvents ⟨none, 0, 0⟩ run.events with ⟨st, oe⟩
  cases oe <;> cases hs : run.streamErr <;>
    simp [get_response, get_response_async, hconv, h, hs]

/-- Witness for C4_history_shapes_model_input at a concrete history. -/
theorem C4_witness :
    (get_response (some (pureRun "ok")) "hi"
        [HistItem.dict (some "user") (some "earlier")] "t9").modelInput =
      some [("user", "earlier"), ("user", "hi")] :=
  C4_history_shapes_model_input (pureRun "ok") "hi" "t9"
    [HistItem.dict (some "user") (some "earlier")] [("user", "earlier")] rfl

/-- Claim C5: calling get_response before a successful initialization (absent
agent) returns the fixed agent-not-initialized error text as a normal string,
raises nothing, passes nothing to the model and performs no stream or
single-shot call, for every message, history and thread id. -/
theorem C5_absent_agent_fixed_text (message threadId : String) (history : List HistItem) :
    get_response none message history threadId =
      ⟨.ret "Error: Agent not initialized", none, 0, 0, 0, 0⟩ := rfl

/-- Claim C6: with zero configured providers and an available credential,
initialization succeeds with an agent holding an empty tool set, and a turn
on the pure language-model path (a stream with one agent node carrying
non-empty text and no tools node) returns that non-empty text with zero tool
steps. -/
theorem C6_zero_providers_not_fatal (env : InitEnv) (k t message threadId : String)
    (hkey : env.googleApiKey = some k) (hk : k ≠ "") (hserv : env.servers = [])
    (ht : t ≠ "") :
    init_agent env = (true, "Agent initialized successfully!", some ⟨[]⟩) ∧
    (get_response (some (pureRun t)) message [] threadId).outcome = .ret t ∧
    (get_response (some (pureRun t)) message [] threadId).toolSteps = 0 ∧
    ((pureRun t).events.all fun ev => ev.all fun it => it.1 != "tools") = true := by
  refine ⟨?_, ?_, ?_, ?_⟩
  · simp [init_agent, build_agent_async, get_api_key, hkey, hk, hserv,
      Bind.bind, Except.bind, Pure.pure, Except.pure]
  · simp [get_response, get_response_async, convert_history_to_messages, pureRun,
      runEvents, runItems, procItem, ht]
  · simp [get_response, get_response_async, convert_history_to_messages, pureRun,
      runEvents, runItems, procItem]
  · simp [pureRun]

/-- Witness for C6_zero_providers_not_fatal at a concrete environment and
answer text. -/
theorem C6_witness :
    init_agent c6Env = (true, "Agent initialized successfully!", some ⟨[]⟩) ∧
    (get_response (some (pureRun "Hello, ask me about research papers.")) "hello" [] "t1").outcome =
      .ret "Hello, ask me about research papers." ∧
    (get_response (some (pureRun "Hello, ask me about research papers.")) "hello" [] "t1").toolSteps = 0 ∧
    ((pureRun "Hello, ask me about research papers.").events.all
      fun ev => ev.all fun it => it.1 != "tools") = true :=
  C6_zero_providers_not_fatal c6Env "google-key" "Hello, ask me about research papers."
    "hello" "t1" rfl (by decide) rfl (by decide)

/-- Claim C7 counterexample: with two configured providers of which one fails
to connect, the combined enumeration raises, initialization returns ok=false
and no agent is built, so the healthy provider registers nothing either. -/
theorem C7_counterexample :
    (init_agent c7Env).1 = false ∧ (init_agent c7Env).2.2 = none := ⟨rfl, rfl⟩

/-- Claim C7 as amended: a failure of the tool enumeration (as a failing
provider causes through the fail-fast combined get_tools call) aborts the
whole initialization: ok=false with a diagnostic and no agent, with no
per-provider isolation. -/
theorem C7_provider_failure_aborts (env : InitEnv) (k e : String)
    (hkey : env.googleApiKey = some k) (hk : k ≠ "")
    (hserv : env.servers ≠ [])
    (hfail : env.getToolsOutcome = .error e) :
    init_agent env = (false, "Failed to initialize agent: " ++ e, none) := by
  simp [init_agent, build_agent_async, get_api_key, hkey, hk, hserv, hfail,
    Bind.bind, Except.bind]

/-- Witness for C7_provider_failure_aborts at the concrete failing
environment. -/
theorem C7_witness :
    init_agent c7Env = (false, "Failed to initialize agent: connection refused", none) :=
  C7_provider_failure_aborts c7Env "google-key" "connection refused"
    rfl (by decide) (by decide) rfl

/-- Claim C8 counterexample: when every external step of paper_to_podcast
succeeds but the 200 Bytescale upload response carries no fileUrl field, the
tool returns Python None rather than a text string. -/
theorem C8_counterexample :
    paper_to_podcast podcastNoFileUrlEnv "https://arxiv.org/pdf/1706.03762" = .ok none := rfl

/-- Claim C8 as amended: every capability returns without propagating an
exception for every environment; retrieve_related_papers, explain_paper and
paper_to_poster always return a text string, while paper_to_podcast returns
some value that can also be Python None. -/
theorem C8_tools_total_never_raise (e1 : SerpEnv) (e2 : GeminiEnv) (e3 : PosterEnv)
    (e4 : PodcastEnv) (topic u1 u2 u3 : String) (n : Nat) :
    (∃ s, retrieve_related_papers e1 topic n = .ok (some s)) ∧
    (∃ s, explain_paper e2 u1 = .ok (some s)) ∧
    (∃ s, paper_to_poster e3 u2 = .ok (some s)) ∧
    (∃ v, paper_to_podcast e4 u3 = .ok v) := by
  refine ⟨?_, ?_, ?_, ?_⟩
  · cases h : retrieve_body e1 topic n with
    | ok s => exact ⟨s, by simp [retrieve_related_papers, h]⟩
    | error e =>
      exact ⟨"Error retrieving papers with SerpApi: " ++ e, by simp [retrieve_related_papers, h]⟩
  · cases h : explain_body e2 u1 with
    | ok s => exact ⟨s, by simp [explain_paper, h]⟩
    | error e =>
      exact ⟨"Error explaining paper: " ++ e ++
        "\nPlease ensure GEMINI_API_KEY is set and you have access to the Gemini 3 Pro preview.",
        by simp [explain_paper, h]⟩
  · cases h : poster_body e3 u2 with
    | ok s => exact ⟨s, by simp [paper_to_poster, h]⟩
    | error e => exact ⟨"Error in paper_to_poster: " ++ e, by simp [paper_to_poster, h]⟩
  · cases h : podcast_body e4 u3 with
    | ok v => exact ⟨v, by simp [paper_to_podcast, h]⟩
    | error e =>
      exact ⟨some ("Error generating podcast: " ++ e), by simp [paper_to_podcast, h]⟩

/-! Helper lemmas about the image URL matcher. -/

theorem ciStartsWith_length : ∀ {p l : List Char}, ciStartsWith p l = true →
    p.length ≤ l.length := by
  intro p
  induction p with
  | nil => intro l _; simp
  | cons a ps ih =>
    intro l h
    cases l with
    | nil => simp [ciStartsWith] at h
    | cons c cs =>
      simp only [ciStartsWith, Bool.and_eq_true] at h
      simpa using Nat.succ_le_succ (ih h.2)

theorem matchScheme_bounds {l : List Char} {s : Nat} (h : matchScheme l = some s) :
    1 ≤ s ∧ s ≤ l.length := by
  unfold matchScheme at h
  split at h
  · rename_i hhttp
    have h4 : (4 : Nat) ≤ l.length := by
      have := ciStartsWith_length hhttp
      simpa using this
    split at h
    · rename_i hsep
      cases h
      have h2 := ciStartsWith_length hsep
      rw [List.length_drop] at h2
      have : ("s://".data).length = 4 := rfl
      omega
    · split at h
      · rename_i hsep
        cases h
        have h2 := ciStartsWith_length hsep
        rw [List.length_drop] at h2
        have : ("://".data).length = 3 := rfl
        omega
      · cases h
  · cases h

theorem extAt_le {l : List Char} {k : Nat} (h : extAt l = some k) : k ≤ l.length := by
  unfold extAt at h
  cases hf : extAlternatives.find? (fun p => ciStartsWith p l) with
  | none => rw [hf] at h; cases h
  | some p =>
    rw [hf] at h
    cases h
    exact ciStartsWith_length (by simpa using List.find?_some hf)

theorem dotExtAt_bounds {l : List Char} {k : Nat} (h : dotExtAt l = some k) :
    1 ≤ k ∧ k ≤ l.length := by
  cases l with
  | nil => simp [dotExtAt] at h
  | cons c rest =>
    simp only [dotExtAt] at h
    split at h
    · cases he : extAt rest with
      | none => rw [he] at h; cases h
      | some e =>
        rw [he] at h
        simp only [Option.map_some'] at h
        cases h
        have := extAt_le he
        simp only [List.length_cons]
        omega
    · cases h

theorem searchDot_bounds {rest : List Char} : ∀ {m L k : Nat},
    searchDot rest m = some (L, k) →
    1 ≤ L ∧ L ≤ m ∧ dotExtAt (rest.drop L) = some k := by
  intro m
  induction m with
  | zero => intro L k h; simp [searchDot] at h
  | succ n ih =>
    intro L k h
    unfold searchDot at h
    cases hd : dotExtAt (rest.drop (n + 1)) with
    | some k2 =>
      rw [hd] at h
      cases h
      exact ⟨by omega, le_refl _, hd⟩
    | none =>
      rw [hd] at h
      obtain ⟨h1, h2, h3⟩ := ih h
      exact ⟨h1, by omega, h3⟩

theorem queryLen_le (l : List Char) : queryLen l ≤ l.length := by
  cases l with
  | nil => simp [queryLen]
  | cons c rest =>
    simp only [queryLen]
    split
    · have h1 : (rest.takeWhile isRunChar).length ≤ rest.length :=
        List.Sublist.length_le (List.takeWhile_sublist isRunChar)
      simp only [List.length_cons]
      omega
    · simp

theorem tryMatchAt_bounds {l : List Char} {L : Nat} (h : tryMatchAt l = some L) :
    1 ≤ L ∧ L ≤ l.length := by
  unfold tryMatchAt at h
  split at h
  · cases h
  · rename_i s hs
    obtain ⟨hs1, hs2⟩ := matchScheme_bounds hs
    split at h
    · cases h
    · rename_i Lb k hd
      cases h
      obtain ⟨h1, h2, h3⟩ := searchDot_bounds hd
      have hk := (dotExtAt_bounds h3).2
      have hq := queryLen_le ((l.drop s).drop (Lb + k))
      have hrun : ((l.drop s).takeWhile isRunChar).length ≤ (l.drop s).length :=
        List.Sublist.length_le (List.takeWhile_sublist isRunChar)
      simp only [List.length_drop] at hk hq hrun h2
      constructor
      · omega
      · omega

theorem matchChain_mono {orig : List Char} {q : Nat} {ms : List (Nat × Nat)}
    (h : MatchChain orig q ms) {p : Nat} (hpq : p ≤ q) : MatchChain orig p ms := by
  cases h with
  | nil => exact .nil p
  | cons _ s L ms hps hL hsL hch => exact .cons p s L ms (le_trans hpq hps) hL hsL hch

theorem scanFrom_chain (orig : List Char) : ∀ (f pos : Nat),
    MatchChain orig pos (scanFrom orig f pos) := by
  intro f
  induction f with
  | zero => intro pos; exact .nil pos
  | succ n ih =>
    intro pos
    unfold scanFrom
    split
    · rename_i hlt
      cases ht : tryMatchAt (orig.drop pos) with
      | none =>
        exact matchChain_mono (ih (pos + 1)) (by omega)
      | some L =>
        obtain ⟨h1, h2⟩ := tryMatchAt_bounds ht
        rw [List.length_drop] at h2
        exact .cons pos pos L _ (le_refl _) h1 (by omega) (ih (pos + L))
    · exact .nil pos

theorem findMatches_chain (orig : List Char) : MatchChain orig 0 (findMatches orig) :=
  scanFrom_chain orig (orig.length + 1) 0

theorem matchChain_filter {orig : List Char} {pred : Nat × Nat → Bool} :
    ∀ {q : Nat} {ms : List (Nat × Nat)}, MatchChain orig q ms →
    MatchChain orig q (ms.filter pred) := by
  intro q ms h
  induction h with
  | nil => exact .nil _
  | cons p s L ms hps hL hsL hch ih =>
    rw [List.filter_cons]
    split
    · exact .cons p s L _ hps hL hsL ih
    · exact matchChain_mono ih (by omega)

theorem take_split (orig : List Char) {p s : Nat} (h : p ≤ s) :
    orig.take p ++ (orig.drop p).take (s - p) = orig.take s := by
  rw [← List.take_add]
  congr 1
  omega

theorem rebuild_shift {orig : List Char} {ms : List (Nat × Nat)} {p q : Nat}
    (hch : MatchChain orig q ms) (hpq : p ≤ q) :
    orig.take p ++ rebuildFrom orig ms p = orig.take q ++ rebuildFrom orig ms q := by
  cases hch with
  | nil => simp [rebuildFrom, List.take_append_drop]
  | cons _ s L ms2 hqs hL hsL hch2 =>
    simp only [rebuildFrom, ← List.append_assoc]
    rw [take_split orig (le_trans hpq hqs), take_split orig hqs]

theorem foldl_stepImage_images (orig : List Char) : ∀ (ms : List (Nat × Nat))
    (acc : List Char × List (List Char)),
    (ms.foldl (stepImage orig) acc).2 =
      acc.2 ++ (ms.filter fun m => notMarkdownAt orig m.1).map (urlAt orig) := by
  intro ms
  induction ms with
  | nil => intro acc; simp
  | cons m rest ih =>
    intro acc
    rw [List.foldl_cons, ih, List.filter_cons]
    by_cases hq : notMarkdownAt orig m.1 = true
    · simp [stepImage, hq]
    · simp [stepImage, hq]

theorem foldl_stepImage_text (orig : List Char) (imgs : List (List Char)) :
    ∀ (ms : List (Nat × Nat)) (p : Nat), MatchChain orig p ms →
    (ms.reverse.foldl (stepImage orig) (orig, imgs)).1 =
      orig.take p ++ rebuildFrom orig (ms.filter fun m => notMarkdownAt orig m.1) p := by
  intro ms
  induction ms with
  | nil =>
    intro p _
    simp [rebuildFrom, List.take_append_drop]
  | cons m rest ih =>
    intro p hch
    obtain ⟨s, L⟩ := m
    cases hch with
    | cons _ _ _ _ hps hL hsL hch2 =>
    rw [List.reverse_cons, List.foldl_append]
    have hinner := ih (s + L) hch2
    rw [List.foldl_cons, List.foldl_nil]
    have hlen : ((orig.take (s + L)).length) = s + L := by
      rw [List.length_take]
      omega
    rw [List.filter_cons]
    by_cases hq : notMarkdownAt orig s = true
    · simp only [stepImage, hq, if_pos]
      rw [hinner]
      have htake : ((orig.take (s + L) ++
          rebuildFrom orig (rest.filter fun m => notMarkdownAt orig m.1) (s + L)).take s) =
          orig.take s := by
        rw [List.take_append_eq_append_take, hlen, List.take_take]
        have h1 : min s (s + L) = s := by omega
        have h2 : s - (s + L) = 0 := by omega
        rw [h1, h2]
        simp
      have hdrop : ((orig.take (s + L) ++
          rebuildFrom orig (rest.filter fun m => notMarkdownAt orig m.1) (s + L)).drop (s + L)) =
          rebuildFrom orig (rest.filter fun m => notMarkdownAt orig m.1) (s + L) := by
        rw [List.drop_left' hlen]
      rw [htake, hdrop]
      simp only [rebuildFrom, ← List.append_assoc]
      rw [take_split orig hps]
    · simp only [stepImage, hq, if_neg, Bool.not_eq_true]
      rw [hinner]
      exact (rebuild_shift (matchChain_filter hch2) (by omega)).symm

/-! Claim theorems for the front-end handlers. -/

/-- Claim C9: a message that is empty or consists only of whitespace makes
respond a no-op towards the agent: it returns the cleared input, the history
unchanged with no entry appended and the thread id unchanged, and it never
calls the session coordinator. -/
theorem C9_whitespace_message_noop (getResp : String → List ChatMsg → String → String)
    (freshId message threadId : String) (history : List ChatMsg)
    (h : message.data.all pyIsSpace = true) :
    respond getResp freshId message history threadId = ⟨"", history, threadId, 0⟩ := by
  have hnil : message.data.dropWhile pyIsSpace = [] := by
    rw [List.dropWhile_eq_nil_iff]
    exact fun x hx => List.all_eq_true.mp h x hx
  have hstrip : pyStrip message = "" := by
    unfold pyStrip
    rw [hnil]
    rfl
  unfold respond
  rw [hstrip]
  rfl

/-- Witness for C9_whitespace_message_noop at a concrete whitespace-only
message. -/
theorem C9_witness :
    respond (fun _ _ _ => "BOT ANSWER") "fresh-uuid" "  \t\n " [("user", "earlier")] "t7" =
      ⟨"", [("user", "earlier")], "t7", 0⟩ :=
  C9_whitespace_message_noop (fun _ _ _ => "BOT ANSWER") "fresh-uuid" "  \t\n " "t7"
    [("user", "earlier")] (by decide)

/-- Claim C10: extract_images_from_text is total and shape-preserving at its
edges: non-string input comes back unchanged with an empty image list; for a
string, the image list collects exactly the matched URLs not already preceded
by a markdown image opener, in reverse document order, and the returned text
is the original text with exactly those matches replaced in place by the
markdown image block while matches preceded by the opener stay unmodified. -/
theorem C10_extract_images_spec :
    (∀ v : PyVal, (∀ s, v ≠ .pyStr s) → extract_images_from_text v = (v, [])) ∧
    (∀ s : String,
      (extract_images_from_text (.pyStr s)).2 =
        (((findMatches s.data).reverse.filter fun m => notMarkdownAt s.data m.1).map
          fun m => (⟨urlAt s.data m⟩ : String)) ∧
      (extract_images_from_text (.pyStr s)).1 =
        .pyStr ⟨rebuildFrom s.data
          ((findMatches s.data).filter fun m => notMarkdownAt s.data m.1) 0⟩) := by
  constructor
  · intro v hv
    cases v with
    | pyStr s => exact absurd rfl (hv s)
    | pyNone => rfl
    | pyOther => rfl
  · intro s
    by_cases hd : s.data = []
    · obtain ⟨d⟩ := s
      simp only at hd
      subst hd
      exact ⟨rfl, rfl⟩
    · have he : extractFromStr s =
          (⟨(applyMatches s.data).1⟩, (applyMatches s.data).2.map fun u => (⟨u⟩ : String)) := by
        unfold extractFromStr
        rw [if_neg hd]
      have himg := foldl_stepImage_images s.data (findMatches s.data).reverse (s.data, [])
      have htxt := foldl_stepImage_text s.data [] (findMatches s.data) 0 (findMatches_chain s.data)
      constructor
      · show (extractFromStr s).2 = _
        rw [he]
        show ((applyMatches s.data).2.map fun u => (⟨u⟩ : String)) = _
        unfold applyMatches
        rw [himg, List.nil_append, List.map_map]
        rfl
      · show PyVal.pyStr (extractFromStr s).1 = _
        rw [he]
        have hone : (applyMatches s.data).1 =
            rebuildFrom s.data ((findMatches s.data).filter fun m => notMarkdownAt s.data m.1) 0 := by
          unfold applyMatches
          rw [htxt, List.take_zero, List.nil_append]
        rw [hone]

/-- Witness for C10_extract_images_spec: the non-string edge applied at
None, and the string characterization applied at a concrete answer text
holding one image URL. -/
theorem C10_witness :
    extract_images_from_text .pyNone = (.pyNone, []) ∧
    (extract_images_from_text (.pyStr "see https://x.io/a.png now")).2 =
      ["https://x.io/a.png"] := by
  constructor
  · exact C10_extract_images_spec.1 .pyNone (fun s h => PyVal.noConfusion h)
  · rw [(C10_extract_images_spec.2 "see https://x.io/a.png now").1]
    rfl

end GradioHackathon
